import Mathlib

/-!
Shallow embedding of the load-testing harness of this repository:
the `stats` package (Config / Stats.Start / Recorder, second file of
src/unnamed/part_003), the standalone cloudsql load-test program
(src/unnamed/part_001), and the cloudsql caller of the stats package
(src/go/cloudsql/performance-test/main.go).

Modelling conventions:
* Go `int` / `int64` / `time.Duration` are embedded as `Int`, with 64-bit
  two's-complement wraparound (`wrap64`) applied exactly where the Go code
  increments a counter.
* `time.Time` values (from `time.Now()`) are nanosecond instants embedded as
  `Int`; a run's successive `time.Now()` samples are an arbitrary function
  `clock : ℕ → Int` (sample 0 is taken when `stopTime` is computed).
* `float64` duration samples are embedded as `ℚ`; the statistics library's
  `(value, err)` pairs become `GoFloat × Bool` where `GoFloat.nan` stands
  for `math.NaN()` and the `Bool` is `true` exactly when the Go call
  returned a non-nil error.
* The concurrent dispatch loop of `Stats.Start` is embedded as a labelled
  transition system (`statspkg.StartStep`): one step per loop-condition
  check/dispatch, per goroutine completion (its deferred `record` plus
  semaphore release), and per `return`.  The mutex-guarded critical
  sections of `Recorder.record` and the `inserted` map are atomic in the
  Go program, so they are single steps / sequential folds here.
-/

/-- Two's-complement wraparound of Go's 64-bit signed integers:
`int64` addition in Go wraps, e.g. in `r.Tries++`. -/
def wrap64 (n : Int) : Int :=
  (n + 9223372036854775808) % 18446744073709551616 - 9223372036854775808

/-- A Go `float64` as produced by the montanaflynn stats library: either a
real value or `math.NaN()` (returned together with `EmptyInputErr`). -/
inductive GoFloat where
  | nan : GoFloat
  | val (q : ℚ) : GoFloat
deriving DecidableEq

namespace mstats

/-! Model of the external `github.com/montanaflynn/stats` functions the
repository calls (`Min`, `Max`, `Median`, `Percentile`).  Only their
shape matters to the claims: each returns `(NaN, EmptyInputErr)` on an
empty sample and `(value, nil)` otherwise; the second component of the
pair below is `true` exactly when the Go error is non-nil. -/

/-- Insertion step of the library's ascending `sortedCopy`. -/
def insertSorted (x : ℚ) : List ℚ → List ℚ
  | [] => [x]
  | y :: ys => if x ≤ y then x :: y :: ys else y :: insertSorted x ys

/-- The library's `sortedCopy`: an ascending sorted copy of the input. -/
def sortedCopy (l : List ℚ) : List ℚ :=
  l.foldr insertSorted []

/-- `stats.Min`: `(NaN, EmptyInputErr)` on empty input, else the smallest
element with a nil error. -/
def Min (input : List ℚ) : GoFloat × Bool :=
  match input with
  | [] => (.nan, true)
  | x :: xs => (.val (xs.foldl min x), false)

/-- `stats.Max`: `(NaN, EmptyInputErr)` on empty input, else the largest
element with a nil error. -/
def Max (input : List ℚ) : GoFloat × Bool :=
  match input with
  | [] => (.nan, true)
  | x :: xs => (.val (xs.foldl max x), false)

/-- `stats.Median`: sorts a copy, errors on empty input, averages the two
middle elements for even length, middle element for odd length. -/
def Median (input : List ℚ) : GoFloat × Bool :=
  if (sortedCopy input).length = 0 then (.nan, true)
  else if (sortedCopy input).length % 2 = 0 then
    (.val (((sortedCopy input).getD ((sortedCopy input).length / 2 - 1) 0 +
            (sortedCopy input).getD ((sortedCopy input).length / 2) 0) / 2), false)
  else
    (.val ((sortedCopy input).getD ((sortedCopy input).length / 2) 0), false)

/-- Rank selection of `stats.Percentile` on the sorted copy `c`: with
`index = percent/100 * len(c)`, a whole `index` averages the elements at
`index-1` and `index`, otherwise the element at `⌊index⌋` is taken. -/
def percentileSorted (c : List ℚ) (percent : ℚ) : GoFloat × Bool :=
  if (percent / 100 * c.length).den = 1 then
    (.val ((c.getD ((percent / 100 * c.length).num.toNat - 1) 0 +
            c.getD (percent / 100 * c.length).num.toNat 0) / 2), false)
  else
    (.val (c.getD (percent / 100 * c.length).floor.toNat 0), false)

/-- `stats.Percentile`: `(NaN, EmptyInputErr)` on empty input, the sole
element for singletons, `(NaN, BoundsErr)` for `percent` outside `(0, 100]`,
otherwise rank selection on the sorted copy with a nil error. -/
def Percentile (input : List ℚ) (percent : ℚ) : GoFloat × Bool :=
  if input.length = 0 then (.nan, true)
  else if input.length = 1 then (.val (input.getD 0 0), false)
  else if percent ≤ 0 ∨ 100 < percent then (.nan, true)
  else percentileSorted (sortedCopy input) percent

end mstats

namespace statspkg

/-! The reusable `stats` package (second file of src/unnamed/part_003). -/

/-- `stats.Config` (part_003 lines 165-168): `RunFor time.Duration` in
nanoseconds and `ReqCount int`, both carrying `validate:"required"`. -/
structure Config where
  RunFor : Int
  ReqCount : Int
deriving DecidableEq

/-- `Config.Validate` (part_003 lines 189-191): go-playground validator's
`required` tag fails a field exactly when it holds its type's zero value;
`Struct` collects the failing fields in declaration order.  The result is
the list of failing field names; `[]` is a nil error. -/
def Config.Validate (c : Config) : List String :=
  (if c.RunFor = 0 then ["RunFor"] else []) ++
    (if c.ReqCount = 0 then ["ReqCount"] else [])

/-- Outcome of the validation gate at the top of `Stats.Start`
(part_003 lines 207-209): an `invalid` config makes `Start` return the
validation error before the semaphore, WaitGroup or dispatch loop exist;
otherwise control `ran` into the dispatch loop. -/
inductive StartEntry where
  | invalid (fields : List String) : StartEntry
  | ran : StartEntry
deriving DecidableEq

/-- The validation gate of `Stats.Start`: `s.Config.Validate()` is checked
before any operation is dispatched. -/
def Stats.start (c : Config) : StartEntry :=
  match Config.Validate c with
  | [] => .ran
  | e :: es => .invalid (e :: es)

/-- `stats.Recorder` (part_003 lines 253-258): exported `Tries`/`Ok`
counters (Go `int`) and the private `durations []float64` slice.  The
standalone program's `stats` struct (part_001 lines 48-52) is identical up
to field names. -/
structure Recorder where
  Tries : Int
  Ok : Int
  durations : List ℚ
deriving DecidableEq

/-- The zero value of `Recorder`: how Go initializes the named return
values `read, write` of `Stats.Start` and the `read, writes` locals of the
standalone main. -/
def Recorder.init : Recorder :=
  ⟨0, 0, []⟩

/-- `Recorder.record` (part_003 lines 260-271): under `r.mu`, increment
`Tries`, increment `Ok` when the operation succeeded, and append the
duration (converted to `float64`) — one critical section.  Counter
increments wrap as Go `int64`.  The standalone `stats.record`
(part_001 lines 54-65) is the same logic. -/
def Recorder.record (r : Recorder) (ok : Bool) (d : Int) : Recorder :=
  { Tries := wrap64 (r.Tries + 1)
    Ok := if ok then wrap64 (r.Ok + 1) else r.Ok
    durations := r.durations ++ [(d : ℚ)] }

/-- Sequential application of a list of `record` calls to a fresh
`Recorder`.  The Go calls are serialized by `r.mu`, so any concurrent
execution performs them in some such order. -/
def recordAll (calls : List (Bool × Int)) : Recorder :=
  calls.foldl (fun r c => r.record c.1 c.2) Recorder.init

/-- `Recorder.Aggregate` (part_003 lines 273-302) as the labelled values
it formats, in print order.  Every statistics call discards the error with
a blank identifier (`min, _ = stats.Min(r.durations)` and so on). -/
def Recorder.Aggregate (r : Recorder) : List (String × GoFloat) :=
  [("min", (mstats.Min r.durations).1),
   ("max", (mstats.Max r.durations).1),
   ("median", (mstats.Median r.durations).1),
   ("25th percentile", (mstats.Percentile r.durations 25).1),
   ("50th percentile", (mstats.Percentile r.durations 50).1),
   ("75th percentile", (mstats.Percentile r.durations 75).1),
   ("95th percentile", (mstats.Percentile r.durations 95).1),
   ("99th percentile", (mstats.Percentile r.durations 99).1)]

/-! Labelled transition system for the dispatch loop of `Stats.Start`
(part_003 lines 211-250).  After validation passes, the Go code takes
`stopTime = time.Now().Add(s.Config.RunFor)` (clock sample 0) and loops
`for time.Now().Before(stopTime) || s.Config.RunFor == 0`, each iteration
acquiring one slot of the buffered channel `sem` (capacity `ReqCount`) and
launching one goroutine; each goroutine eventually runs its deferred
`rec.record(ok, ...)` and releases its slot.  The loop body then `return`s
— the declared `sync.WaitGroup` is `Add`ed and `Done`d but never
`Wait`ed on, so `return` is not guarded by the in-flight count. -/

/-- State of a `Stats.Start` run: `iter` loop-condition checks have
evaluated true so far (one dispatch each), `dispatching` is whether the
loop is still running, `inflight` is the number of semaphore slots held by
unfinished goroutines, `returned` is whether `Start` has executed its
`return`, and `read`/`write` are the two named-return recorders. -/
structure StartState where
  iter : ℕ
  dispatching : Bool
  inflight : ℕ
  returned : Bool
  read : Recorder
  write : Recorder
deriving DecidableEq

/-- Initial state of the dispatch loop: nothing dispatched, both
named-return recorders are Go zero values. -/
def initState : StartState :=
  ⟨0, true, 0, false, Recorder.init, Recorder.init⟩

/-- The `k`-th evaluation of the loop condition
`time.Now().Before(stopTime) || s.Config.RunFor == 0`, where clock sample
`k+1` is this check's `time.Now()` and `stopTime = clock 0 + RunFor`. -/
def loopCond (c : Config) (clock : ℕ → Int) (k : ℕ) : Bool :=
  decide (clock (k + 1) < clock 0 + c.RunFor) || decide (c.RunFor = 0)

/-- One step of a `Stats.Start` run (after validation passed):
* `dispatch`: the loop condition evaluated true and a semaphore slot was
  free (`sem <- struct{}{}` blocks otherwise), so one goroutine launches;
* `exitLoop`: the loop condition evaluated false, the loop ends;
* `finishRead`/`finishWrite`: an in-flight goroutine completes — its
  deferred `rec.record(ok, time.Since(opStart))` runs and its slot is
  released (`<-sem`);
* `ret`: the function returns; the code has no `wg.Wait()`, so this step
  requires only that the loop has exited, not that `inflight = 0`. -/
inductive StartStep (c : Config) (clock : ℕ → Int) : StartState → StartState → Prop where
  | dispatch (s : StartState) :
      s.dispatching = true →
      loopCond c clock s.iter = true →
      s.inflight < c.ReqCount.toNat →
      StartStep c clock s { s with iter := s.iter + 1, inflight := s.inflight + 1 }
  | exitLoop (s : StartState) :
      s.dispatching = true →
      loopCond c clock s.iter = false →
      StartStep c clock s { s with dispatching := false }
  | finishRead (s : StartState) (ok : Bool) (d : Int) :
      0 < s.inflight →
      StartStep c clock s { s with inflight := s.inflight - 1, read := s.read.record ok d }
  | finishWrite (s : StartState) (ok : Bool) (d : Int) :
      0 < s.inflight →
      StartStep c clock s { s with inflight := s.inflight - 1, write := s.write.record ok d }
  | ret (s : StartState) :
      s.dispatching = false →
      s.returned = false →
      StartStep c clock s { s with returned := true }

/-- States a `Stats.Start` run can reach from its initial state. -/
def Reachable (c : Config) (clock : ℕ → Int) (s : StartState) : Prop :=
  Relation.ReflTransGen (StartStep c clock) initState s

/-! Concrete run exhibiting `Stats.Start` returning while an operation is
still in flight: `RunFor = 1ns`, `ReqCount = 1`; the clock reads 0 at the
stop-time computation and first check, and 5 at the second check. -/

/-- Configuration `RunFor = 1` (one nanosecond), `ReqCount = 1`. -/
def c1Config : Config :=
  ⟨1, 1⟩

/-- Clock samples for the concrete run: 0, 0, then 5 forever. -/
def c1Clock : ℕ → Int :=
  fun k => if k ≤ 1 then 0 else 5

/-- State after one dispatch, loop exit and `return`: `Start` has
returned while the dispatched operation is still in flight. -/
def c1Mid : StartState :=
  ⟨1, false, 1, true, Recorder.init, Recorder.init⟩

/-- State after the in-flight operation completes (a successful write
taking 2ns): its deferred `record` has mutated the `write` recorder that
`Start` already returned. -/
def c1After : StartState :=
  ⟨1, false, 0, true, Recorder.init, Recorder.init.record true 2⟩

end statspkg

/-- Kind of adapter write call decided for one write operation. -/
inductive WriteKind where
  | insert : WriteKind
  | update : WriteKind
deriving DecidableEq

namespace writeFunc

/-! The insert-vs-update decision shared (verbatim up to the unlock
placement handled below) by the cloudsql `writeFunc`
(src/go/cloudsql/performance-test/main.go lines 63-75) and the standalone
main's write branch (src/unnamed/part_001 lines 137-150): under `mapLock`,
look `id` up in the `inserted` map; if present the op is an `update`; if
absent, mark `inserted[id] = true` and the op is an `insert`.  The mutex
makes each check-then-set atomic, so the decisions of a concurrent run
form some serial order; `trace` runs one such order. -/

/-- One critical section: the decided write kind and the updated
`inserted` map (a Go `map[int]bool`, embedded as its lookup function). -/
def step (inserted : Int → Bool) (id : Int) : WriteKind × (Int → Bool) :=
  if inserted id then (.update, inserted)
  else (.insert, fun j => if j = id then true else inserted j)

/-- Serialized decisions of a run: each write operation's id, in the order
their critical sections acquired `mapLock`, paired with the decided kind. -/
def trace (inserted : Int → Bool) : List Int → List (Int × WriteKind)
  | [] => []
  | id :: ids => (id, (step inserted id).1) :: trace (step inserted id).2 ids

end writeFunc

/-- Events of one write operation, in program order: lock and unlock of
`mapLock`, marking the id in the `inserted` map, and the adapter calls. -/
inductive WEvent where
  | lock : WEvent
  | unlock : WEvent
  | mark (id : Int) : WEvent
  | callInsert (id : Int) : WEvent
  | callUpdate (id : Int) : WEvent
deriving DecidableEq

/-- Whether an event is an adapter call. -/
def WEvent.isCall : WEvent → Bool
  | .callInsert _ => true
  | .callUpdate _ => true
  | _ => false

/-- Whether some adapter call occurs while the lock depth is positive,
scanning an event list with the given starting depth. -/
def callUnderLock : List WEvent → ℕ → Bool
  | [], _ => false
  | e :: es, depth =>
    match e with
    | .lock => callUnderLock es (depth + 1)
    | .unlock => callUnderLock es (depth - 1)
    | _ => (e.isCall && decide (0 < depth)) || callUnderLock es depth

namespace writeFunc

/-- Event order of the cloudsql `writeFunc`
(src/go/cloudsql/performance-test/main.go lines 63-75): on the update path
`mapLock.Unlock()` precedes `update(...)`; on the insert path the id is
marked, the lock released, then `insert(...)` is called. -/
def events (inserted : Int → Bool) (id : Int) : List WEvent :=
  if inserted id then [.lock, .unlock, .callUpdate id]
  else [.lock, .mark id, .unlock, .callInsert id]

end writeFunc

namespace sqlmain

/-! The standalone cloudsql load-test program (src/unnamed/part_001). -/

/-- Event order of the standalone main's write branch (part_001 lines
138-146): on the update path `update(...)` is called and only then
`mapLock.Unlock()` — the adapter call happens inside the critical
section; the insert path marks, unlocks, then calls `insert(...)`. -/
def mainWriteEvents (inserted : Int → Bool) (id : Int) : List WEvent :=
  if inserted id then [.lock, .callUpdate id, .unlock]
  else [.lock, .mark id, .unlock, .callInsert id]

/-- The standalone `stats` struct (part_001 lines 48-52): `tries`/`ok`
counters and the `ds []float64` slice. -/
structure stats where
  tries : Int
  ok : Int
  ds : List ℚ
deriving DecidableEq

/-- The standalone `stats.aggregate` (part_001 lines 67-87) as the
labelled values it formats, in print order: only min, median and the
75th/95th/99th percentiles — no max and no 25th/50th percentile.  As in
the stats package, every error is discarded with a blank identifier. -/
def stats.aggregate (s : stats) : List (String × GoFloat) :=
  [("min", (mstats.Min s.ds).1),
   ("median", (mstats.Median s.ds).1),
   ("75th percentile", (mstats.Percentile s.ds 75).1),
   ("95th percentile", (mstats.Percentile s.ds 95).1),
   ("99th percentile", (mstats.Percentile s.ds 99).1)]

end sqlmain

/-!
Helper lemmas.
-/

/-- Wraparound is the identity on values that fit in a signed 64-bit
integer. -/
theorem wrap64_eq_self (n : Int) (h0 : 0 ≤ n) (h1 : n < 9223372036854775808) :
    wrap64 n = n := by
  unfold wrap64
  omega

/-- Inserting into a sorted list grows its length by one. -/
theorem mstats.length_insertSorted (x : ℚ) (l : List ℚ) :
    (mstats.insertSorted x l).length = l.length + 1 := by
  induction l with
  | nil => rfl
  | cons y ys ih =>
    simp only [mstats.insertSorted]
    split
    · simp
    · simp [ih]

/-- The library's sorted copy preserves length. -/
theorem mstats.length_sortedCopy (l : List ℚ) :
    (mstats.sortedCopy l).length = l.length := by
  induction l with
  | nil => rfl
  | cons x xs ih =>
    show (mstats.insertSorted x (mstats.sortedCopy xs)).length = xs.length + 1
    rw [mstats.length_insertSorted, ih]

/-- `Min` returns a value, not NaN, on nonempty input. -/
theorem mstats.Min_ne_nan (l : List ℚ) (h : l ≠ []) :
    (mstats.Min l).1 ≠ GoFloat.nan := by
  cases l with
  | nil => exact absurd rfl h
  | cons x xs => simp [mstats.Min]

/-- `Max` returns a value, not NaN, on nonempty input. -/
theorem mstats.Max_ne_nan (l : List ℚ) (h : l ≠ []) :
    (mstats.Max l).1 ≠ GoFloat.nan := by
  cases l with
  | nil => exact absurd rfl h
  | cons x xs => simp [mstats.Max]

/-- `Median` returns a value, not NaN, on nonempty input. -/
theorem mstats.Median_ne_nan (l : List ℚ) (h : l ≠ []) :
    (mstats.Median l).1 ≠ GoFloat.nan := by
  have hl : (mstats.sortedCopy l).length ≠ 0 := by
    rw [mstats.length_sortedCopy]
    simpa using h
  unfold mstats.Median
  split
  · next h0 => exact absurd h0 hl
  · split <;> simp

/-- Rank selection always returns a value, not NaN. -/
theorem mstats.percentileSorted_ne_nan (c : List ℚ) (p : ℚ) :
    (mstats.percentileSorted c p).1 ≠ GoFloat.nan := by
  unfold mstats.percentileSorted
  split <;> simp

/-- `Percentile` returns a value, not NaN, on nonempty input and a
percent in `(0, 100]`. -/
theorem mstats.Percentile_ne_nan (l : List ℚ) (p : ℚ) (h : l ≠ [])
    (hp0 : 0 < p) (hp1 : p ≤ 100) : (mstats.Percentile l p).1 ≠ GoFloat.nan := by
  unfold mstats.Percentile
  split
  · next h0 => exact absurd (List.length_eq_zero.mp h0) h
  · split
    · simp
    · split
      · next hb =>
        rcases hb with hb | hb
        · exact absurd hp0 (not_lt.mpr hb)
        · exact absurd hp1 (not_le.mpr hb)
      · exact mstats.percentileSorted_ne_nan _ _

/-- Folding `record` calls over any well-formed recorder adds one try per
call, one success per successful call, and one duration per call, as long
as the final try count still fits in `int64`. -/
theorem recordAll_spec (calls : List (Bool × Int)) : ∀ r : statspkg.Recorder,
    0 ≤ r.Ok → r.Ok ≤ r.Tries → r.Tries = (r.durations.length : Int) →
    r.Tries + calls.length < 9223372036854775808 →
    (calls.foldl (fun r c => r.record c.1 c.2) r).Tries = r.Tries + calls.length ∧
    (calls.foldl (fun r c => r.record c.1 c.2) r).Ok
      = r.Ok + ((calls.filter Prod.fst).length : Int) ∧
    (calls.foldl (fun r c => r.record c.1 c.2) r).durations
      = r.durations ++ calls.map (fun c => ((c.2 : ℚ))) := by
  induction calls with
  | nil => intro r _ _ _ _; simp
  | cons c cs ih =>
    intro r hOk0 hOkT hTd hfit
    have hT0 : 0 ≤ r.Tries := le_trans hOk0 hOkT
    have hstep : (r.record c.1 c.2).Tries = r.Tries + 1 ∧
        (r.record c.1 c.2).Ok = r.Ok + (if c.1 then 1 else 0) ∧
        (r.record c.1 c.2).durations = r.durations ++ [((c.2 : ℚ))] := by
      refine ⟨?_, ?_, rfl⟩
      · show wrap64 (r.Tries + 1) = r.Tries + 1
        refine wrap64_eq_self _ (by omega) (by simp at hfit; omega)
      · show (if c.1 then wrap64 (r.Ok + 1) else r.Ok) = r.Ok + (if c.1 then 1 else 0)
        cases hc : c.1 with
        | false => simp
        | true =>
          simp only [if_pos rfl]
          refine wrap64_eq_self _ (by omega) (by simp at hfit; omega)
    obtain ⟨hsT, hsO, hsD⟩ := hstep
    have := ih (r.record c.1 c.2) (by rw [hsO]; omega) (by rw [hsO, hsT]; split <;> omega)
      (by rw [hsT, hsD, hTd]; simp) (by rw [hsT]; simp at hfit ⊢; omega)
    obtain ⟨iT, iO, iD⟩ := this
    refine ⟨?_, ?_, ?_⟩
    · show (cs.foldl (fun r c => r.record c.1 c.2) (r.record c.1 c.2)).Tries = _
      rw [iT, hsT]; simp; omega
    · show (cs.foldl (fun r c => r.record c.1 c.2) (r.record c.1 c.2)).Ok = _
      rw [iO, hsO, List.filter_cons]
      cases hc : c.1 with
      | false => simp
      | true => simp; omega
    · show (cs.foldl (fun r c => r.record c.1 c.2) (r.record c.1 c.2)).durations = _
      rw [iD, hsD]; simp

/-- Per-key characterization of the serialized insert-vs-update decisions:
starting from any `inserted` map, the write kinds attributed to a key are
all updates when the key is already marked, and one insert followed by
updates when it is not. -/
theorem trace_filter (ids : List Int) : ∀ (ins : Int → Bool) (id : Int),
    ((writeFunc.trace ins ids).filter (fun p => decide (p.1 = id))).map Prod.snd =
      if ins id then List.replicate (ids.count id) WriteKind.update
      else if id ∈ ids then
        WriteKind.insert :: List.replicate (ids.count id - 1) WriteKind.update
      else [] := by
  induction ids with
  | nil =>
    intro ins id
    simp [writeFunc.trace]
  | cons a tl ih =>
    intro ins id
    simp only [writeFunc.trace, List.filter_cons]
    by_cases heq : a = id
    · subst heq
      by_cases hins : ins a = true
      · have h1 : (writeFunc.step ins a).1 = WriteKind.update := by
          simp [writeFunc.step, hins]
        have h2 : (writeFunc.step ins a).2 = ins := by
          simp [writeFunc.step, hins]
        simp [h1, h2, ih, hins, List.count_cons, List.replicate_succ]
      · have hins' : ins a = false := by
          simpa using hins
        have h1 : (writeFunc.step ins a).1 = WriteKind.insert := by
          simp [writeFunc.step, hins']
        have h2 : (writeFunc.step ins a).2 = fun j => if j = a then true else ins j := by
          simp [writeFunc.step, hins']
        simp [h1, h2, ih, hins', List.count_cons]
    · by_cases hins : ins a = true
      · have h2 : (writeFunc.step ins a).2 = ins := by
          simp [writeFunc.step, hins]
        simp [h2, ih, heq, Ne.symm heq, List.count_cons]
      · have hins' : ins a = false := by
          simpa using hins
        have h2 : (writeFunc.step ins a).2 = fun j => if j = a then true else ins j := by
          simp [writeFunc.step, hins']
        simp [h2, ih, heq, Ne.symm heq, List.count_cons]

/-!
Claim theorems.
-/

/-- C1 (code bug exhibit): `Stats.Start` (part_003 lines 203-251) declares
`wg sync.WaitGroup` and every goroutine runs `defer wg.Done()`, but the
function never calls `wg.Wait()` before `return` — unlike the standalone
main (part_001 line 161), which does.  Concretely, with
`RunFor = 1ns, ReqCount = 1` and clock samples `0, 0, 5`: the run
dispatches one operation, the deadline passes, the loop exits, and `Start`
returns (`c1Mid`: `returned = true` with one operation still in flight).
The in-flight operation then completes and its deferred `record` mutates
the already-returned `write` recorder (`c1After`), contradicting the claim
that the recorders are returned only after full drain and are no longer
mutated afterwards. -/
theorem stats_start_returns_before_drain :
    statspkg.Reachable statspkg.c1Config statspkg.c1Clock statspkg.c1Mid ∧
    statspkg.c1Mid.returned = true ∧ 0 < statspkg.c1Mid.inflight ∧
    statspkg.StartStep statspkg.c1Config statspkg.c1Clock statspkg.c1Mid statspkg.c1After ∧
    statspkg.c1After.returned = true ∧
    statspkg.c1After.write.Tries = 1 ∧ statspkg.c1Mid.write.Tries = 0 := by
  refine ⟨?_, rfl, by decide, ?_, rfl, by decide, by decide⟩
  · have h1 : statspkg.StartStep statspkg.c1Config statspkg.c1Clock statspkg.initState
        ⟨1, true, 1, false, statspkg.Recorder.init, statspkg.Recorder.init⟩ :=
      statspkg.StartStep.dispatch statspkg.initState rfl (by decide) (by decide)
    have h2 : statspkg.StartStep statspkg.c1Config statspkg.c1Clock
        ⟨1, true, 1, false, statspkg.Recorder.init, statspkg.Recorder.init⟩
        ⟨1, false, 1, false, statspkg.Recorder.init, statspkg.Recorder.init⟩ :=
      statspkg.StartStep.exitLoop _ rfl (by decide)
    have h3 : statspkg.StartStep statspkg.c1Config statspkg.c1Clock
        ⟨1, false, 1, false, statspkg.Recorder.init, statspkg.Recorder.init⟩
        statspkg.c1Mid :=
      statspkg.StartStep.ret _ rfl rfl
    exact Relation.ReflTransGen.tail
      (Relation.ReflTransGen.tail (Relation.ReflTransGen.single h1) h2) h3
  · exact statspkg.StartStep.finishWrite statspkg.c1Mid true 2 (by decide)

/-- C2 (code bug exhibit): the claim (and the `-run_for` flag help,
"0 to run forever until SIGTERM", and the loop's `|| s.Config.RunFor == 0`
branch) says `RunFor == 0` is a valid run-forever configuration, but the
`validate:"required"` tag fails on the zero value, so `Config.Validate`
rejects `RunFor == 0` and `Stats.Start` returns the validation error
before dispatching anything; the run-forever branch of the loop condition
(third conjunct: the condition is `true` under `RunFor = 0` whatever the
clock says) is unreachable through `Start`. -/
theorem config_validate_rejects_zero_runfor :
    statspkg.Config.Validate ⟨0, 100⟩ = ["RunFor"] ∧
    statspkg.Stats.start ⟨0, 100⟩ = statspkg.StartEntry.invalid ["RunFor"] ∧
    statspkg.loopCond ⟨0, 100⟩ (fun _ => 0) 0 = true := by
  exact ⟨by decide, by decide, by decide⟩

/-- C3 (confirmed): the mutex `mapLock` makes each check-then-mark
critical section atomic, so the decisions of any concurrent run form a
serial order, modelled by `writeFunc.trace` starting from the empty
`inserted` map.  For every such order and every key id, the adapter write
kinds attributed to that id are exactly one `insert` (the id's first
write) followed by `count - 1` `update`s, and never an `update` first nor
two `insert`s; moreover after any write critical section the id is marked
in the map the section returns (the mark happens before the lock is
released, hence before `insert` is issued). -/
theorem write_per_key_insert_then_updates :
    (∀ (ids : List Int) (id : Int),
      ((writeFunc.trace (fun _ => false) ids).filter (fun p => decide (p.1 = id))).map
          Prod.snd =
        if id ∈ ids then
          WriteKind.insert :: List.replicate (ids.count id - 1) WriteKind.update
        else []) ∧
    (∀ (ins : Int → Bool) (id : Int), ((writeFunc.step ins id).2) id = true) := by
  constructor
  · intro ids id
    have h := trace_filter ids (fun _ => false) id
    simpa using h
  · intro ins id
    by_cases h : ins id = true <;> simp [writeFunc.step, h]

/-- C4 (counterexample): in the standalone main (part_001 lines 138-146),
when the key is already marked, `update` is called and only afterwards is
`mapLock.Unlock()` executed — an adapter call inside the critical section,
contradicting the claim that no critical section on that lock ever
includes an adapter call. -/
theorem main_update_call_under_lock :
    callUnderLock (sqlmain.mainWriteEvents (fun _ => true) 7) 0 = true := by
  decide

/-- C4 (amended): the stats-package caller's `writeFunc`
(src/go/cloudsql/performance-test/main.go) releases the lock before either
adapter call, and both implementations release it before `insert`; but the
standalone main holds the lock across the `update` call exactly when the
key is already marked. -/
theorem adapter_calls_lock_discipline :
    ∀ (inserted : Int → Bool) (id : Int),
      callUnderLock (writeFunc.events inserted id) 0 = false ∧
      callUnderLock (sqlmain.mainWriteEvents inserted id) 0 = inserted id := by
  intro inserted id
  by_cases h : inserted id = true <;>
    simp [writeFunc.events, sqlmain.mainWriteEvents, callUnderLock, WEvent.isCall, h]

/-- C5 (counterexample): a strictly negative concurrency limit passes
validation — `Config{RunFor: 5s, ReqCount: -5}` validates with a nil
error and `Stats.Start` proceeds past the validation gate into the
dispatch phase, contradicting the claim that every configuration with
`ReqCount <= 0` is rejected by validation before any dispatch.  (In Go the
run then panics at `make(chan struct{}, -5)` instead of failing
validation.) -/
theorem negative_reqcount_passes_validation :
    ((-5 : Int) ≤ 0) ∧
    statspkg.Config.Validate ⟨5000000000, -5⟩ = [] ∧
    statspkg.Stats.start ⟨5000000000, -5⟩ = statspkg.StartEntry.ran := by
  exact ⟨by decide, by decide, by decide⟩

/-- C5 (amended): `Stats.Start` returns an error before any dispatch
exactly when validation fails, and the `required` validation rejects
exactly the zero values: `Start` reaches the dispatch loop iff
`RunFor ≠ 0` and `ReqCount ≠ 0`.  A strictly negative `ReqCount` therefore
passes validation (the Go run then panics allocating the semaphore channel
rather than returning a validation error). -/
theorem start_ran_iff_nonzero_fields :
    ∀ c : statspkg.Config,
      statspkg.Stats.start c = statspkg.StartEntry.ran ↔
        (c.RunFor ≠ 0 ∧ c.ReqCount ≠ 0) := by
  intro c
  by_cases h1 : c.RunFor = 0 <;> by_cases h2 : c.ReqCount = 0 <;>
    simp [statspkg.Stats.start, statspkg.Config.Validate, h1, h2]

/-- C6 (counterexample): on an empty recorder, `Recorder.Aggregate` does
not fail and does not report "no data": its total result is a normally
labelled report whose every value is the NaN the statistics library
returned alongside the discarded `EmptyInputErr`. -/
theorem aggregate_empty_returns_nan_report :
    statspkg.Recorder.Aggregate statspkg.Recorder.init =
      [("min", GoFloat.nan), ("max", GoFloat.nan), ("median", GoFloat.nan),
       ("25th percentile", GoFloat.nan), ("50th percentile", GoFloat.nan),
       ("75th percentile", GoFloat.nan), ("95th percentile", GoFloat.nan),
       ("99th percentile", GoFloat.nan)] := by
  decide

/-- C6 (amended): for every recorder with zero samples, each statistics
call signals the empty-input error (second component `true`), and
`Aggregate` — which discards every such error with a blank identifier —
returns the full eight-entry report with every value NaN instead of
failing or reporting "no data". -/
theorem aggregate_empty_discards_errors :
    ∀ r : statspkg.Recorder, r.durations = [] →
      (statspkg.Recorder.Aggregate r).map Prod.snd = List.replicate 8 GoFloat.nan ∧
      (mstats.Min r.durations).2 = true ∧
      (mstats.Max r.durations).2 = true ∧
      (mstats.Median r.durations).2 = true ∧
      (mstats.Percentile r.durations 25).2 = true ∧
      (mstats.Percentile r.durations 99).2 = true := by
  intro r h
  simp only [statspkg.Recorder.Aggregate, h]
  exact ⟨by decide, by decide, by decide, by decide, by decide, by decide⟩

/-- C6 (witness): the amended statement applied to the empty recorder. -/
theorem aggregate_empty_discards_errors_witness :
    statspkg.Recorder.init.durations = [] ∧
    ((statspkg.Recorder.Aggregate statspkg.Recorder.init).map Prod.snd =
        List.replicate 8 GoFloat.nan ∧
      (mstats.Min statspkg.Recorder.init.durations).2 = true ∧
      (mstats.Max statspkg.Recorder.init.durations).2 = true ∧
      (mstats.Median statspkg.Recorder.init.durations).2 = true ∧
      (mstats.Percentile statspkg.Recorder.init.durations 25).2 = true ∧
      (mstats.Percentile statspkg.Recorder.init.durations 99).2 = true) :=
  ⟨rfl, aggregate_empty_discards_errors statspkg.Recorder.init rfl⟩

/-- C7 (counterexample): the standalone main's `aggregate`
(part_001 lines 67-87) formats no "max", "25th percentile" or
"50th percentile" entry at all — here on the one-sample recorder
`{tries 1, ok 1, ds [5]}` — contradicting the claim that the aggregate
report contains all of min, max, median and the 25/50/75/95/99th
percentiles for both implementations. -/
theorem sqlmain_aggregate_missing_fields :
    ("max" ∉ (sqlmain.stats.aggregate ⟨1, 1, [5]⟩).map Prod.fst) ∧
    ("25th percentile" ∉ (sqlmain.stats.aggregate ⟨1, 1, [5]⟩).map Prod.fst) ∧
    ("50th percentile" ∉ (sqlmain.stats.aggregate ⟨1, 1, [5]⟩).map Prod.fst) ∧
    ("min" ∈ (sqlmain.stats.aggregate ⟨1, 1, [5]⟩).map Prod.fst) := by
  exact ⟨by decide, by decide, by decide, by decide⟩

/-- C7 (amended): the stats package's `Recorder.Aggregate` reports
exactly min, max, median and the 25/50/75/95/99th percentiles (and on a
non-empty sample every reported value is a real number, not NaN), while
the standalone main's `aggregate` reports only min, median and the
75/95/99th percentiles. -/
theorem aggregate_report_fields :
    (∀ r : statspkg.Recorder,
      (statspkg.Recorder.Aggregate r).map Prod.fst =
        ["min", "max", "median", "25th percentile", "50th percentile",
         "75th percentile", "95th percentile", "99th percentile"]) ∧
    (∀ s : sqlmain.stats,
      (sqlmain.stats.aggregate s).map Prod.fst =
        ["min", "median", "75th percentile", "95th percentile", "99th percentile"]) ∧
    (∀ r : statspkg.Recorder, r.durations ≠ [] →
      ∀ p ∈ statspkg.Recorder.Aggregate r, p.2 ≠ GoFloat.nan) := by
  refine ⟨fun r => by simp [statspkg.Recorder.Aggregate],
    fun s => by simp [sqlmain.stats.aggregate], ?_⟩
  intro r h p hp
  have h25 : (mstats.Percentile r.durations 25).1 ≠ GoFloat.nan :=
    mstats.Percentile_ne_nan _ _ h (by norm_num) (by norm_num)
  have h50 : (mstats.Percentile r.durations 50).1 ≠ GoFloat.nan :=
    mstats.Percentile_ne_nan _ _ h (by norm_num) (by norm_num)
  have h75 : (mstats.Percentile r.durations 75).1 ≠ GoFloat.nan :=
    mstats.Percentile_ne_nan _ _ h (by norm_num) (by norm_num)
  have h95 : (mstats.Percentile r.durations 95).1 ≠ GoFloat.nan :=
    mstats.Percentile_ne_nan _ _ h (by norm_num) (by norm_num)
  have h99 : (mstats.Percentile r.durations 99).1 ≠ GoFloat.nan :=
    mstats.Percentile_ne_nan _ _ h (by norm_num) (by norm_num)
  simp only [statspkg.Recorder.Aggregate, List.mem_cons, List.not_mem_nil,
    or_false] at hp
  rcases hp with rfl | rfl | rfl | rfl | rfl | rfl | rfl | rfl
  · exact mstats.Min_ne_nan _ h
  · exact mstats.Max_ne_nan _ h
  · exact mstats.Median_ne_nan _ h
  · exact h25
  · exact h50
  · exact h75
  · exact h95
  · exact h99

/-- C7 (witness): the amended statement applied at a one-sample
recorder. -/
theorem aggregate_report_fields_witness :
    ((statspkg.Recorder.mk 1 1 [5]).durations ≠ []) ∧
    (∀ p ∈ statspkg.Recorder.Aggregate (statspkg.Recorder.mk 1 1 [5]),
      p.2 ≠ GoFloat.nan) :=
  ⟨by decide, aggregate_report_fields.2.2 (statspkg.Recorder.mk 1 1 [5]) (by decide)⟩

/-- C8 (confirmed): for every sequence of `record(ok, d)` calls on a fresh
`Recorder` — serialized in some order by the mutex, each call one critical
section — after the calls complete, `Ok ≤ Tries = len(durations)` holds,
`Tries` counts every call, `Ok` counts exactly the successful calls, and
`durations` holds exactly one sample per call.  Since every prefix of a
call sequence is itself a call sequence, the invariant holds after each
call completes.  The bound `calls.length < 2^63` reflects that the Go
counters are 64-bit: a Go slice's length cannot exceed it. -/
theorem recorder_record_invariant :
    ∀ calls : List (Bool × Int), calls.length < 9223372036854775808 →
      (statspkg.recordAll calls).Ok ≤ (statspkg.recordAll calls).Tries ∧
      (statspkg.recordAll calls).Tries
        = ((statspkg.recordAll calls).durations.length : Int) ∧
      (statspkg.recordAll calls).Tries = (calls.length : Int) ∧
      (statspkg.recordAll calls).Ok = ((calls.filter Prod.fst).length : Int) ∧
      (statspkg.recordAll calls).durations = calls.map (fun c => ((c.2 : ℚ))) := by
  intro calls hlen
  have h := recordAll_spec calls statspkg.Recorder.init (by decide) (by decide)
    (by decide) (by simpa [statspkg.Recorder.init] using hlen)
  obtain ⟨hT, hO, hD⟩ := h
  have hT' : (statspkg.recordAll calls).Tries = (calls.length : Int) := by
    simpa [statspkg.recordAll, statspkg.Recorder.init] using hT
  have hO' : (statspkg.recordAll calls).Ok = ((calls.filter Prod.fst).length : Int) := by
    simpa [statspkg.recordAll, statspkg.Recorder.init] using hO
  have hD' : (statspkg.recordAll calls).durations = calls.map (fun c => ((c.2 : ℚ))) := by
    simpa [statspkg.recordAll, statspkg.Recorder.init] using hD
  refine ⟨?_, ?_, hT', hO', hD'⟩
  · rw [hT', hO']
    have : (calls.filter Prod.fst).length ≤ calls.length := List.length_filter_le _ _
    omega
  · rw [hT', hD']
    simp

/-- C8 (witness): the invariant applied to a concrete two-call
sequence (one success of 5ns, one failure of 3ns). -/
theorem recorder_record_invariant_witness :
    ([((true : Bool), (5 : Int)), (false, 3)].length < 9223372036854775808) ∧
    ((statspkg.recordAll [(true, 5), (false, 3)]).Ok
        ≤ (statspkg.recordAll [(true, 5), (false, 3)]).Tries ∧
      (statspkg.recordAll [(true, 5), (false, 3)]).Tries
        = ((statspkg.recordAll [(true, 5), (false, 3)]).durations.length : Int) ∧
      (statspkg.recordAll [(true, 5), (false, 3)]).Tries
        = (([((true : Bool), (5 : Int)), (false, 3)].length : ℕ) : Int) ∧
      (statspkg.recordAll [(true, 5), (false, 3)]).Ok
        = (([((true : Bool), (5 : Int)), (false, 3)].filter Prod.fst).length : Int) ∧
      (statspkg.recordAll [(true, 5), (false, 3)]).durations
        = [((true : Bool), (5 : Int)), (false, 3)].map (fun c => ((c.2 : ℚ)))) :=
  ⟨by decide, recorder_record_invariant [(true, 5), (false, 3)] (by decide)⟩

/-- C9 (confirmed): the buffered channel `sem` of capacity `ReqCount`
admits a dispatch only when a slot is free (`sem <- struct{}{}` blocks the
loop otherwise) and each operation releases its slot on completion, so in
every reachable state of a run with positive concurrency limit at most
`ReqCount` operations are in flight. -/
theorem concurrency_budget_invariant :
    ∀ (c : statspkg.Config) (clock : ℕ → Int) (s : statspkg.StartState),
      0 < c.ReqCount → statspkg.Reachable c clock s →
      s.inflight ≤ c.ReqCount.toNat := by
  intro c clock s hc h
  induction h with
  | refl => simp [statspkg.initState]
  | tail hab hbc ih =>
    cases hbc with
    | dispatch hd hl hcap => simp only []; omega
    | exitLoop hd hl => simpa using ih
    | finishRead ok d hin => simp only []; omega
    | finishWrite ok d hin => simp only []; omega
    | ret hd hr => simpa using ih

/-- C9 (witness): the invariant applied to the initial state of a run with
`RunFor = 5s, ReqCount = 10`. -/
theorem concurrency_budget_invariant_witness :
    (0 < (10 : Int)) ∧ statspkg.initState.inflight ≤ ((10 : Int)).toNat :=
  ⟨by decide, concurrency_budget_invariant ⟨5000000000, 10⟩ (fun _ => 0)
    statspkg.initState (by decide) Relation.ReflTransGen.refl⟩

/-- C10 (counterexample): the claim quantifies over every configuration
with strictly negative `RunFor`, but `Config{RunFor: -1, ReqCount: 0}` has
strictly negative `RunFor` and is rejected by `Config.Validate` (the
`required` rule fails the zero `ReqCount`), so `Stats.Start` returns the
validation error, not a nil error. -/
theorem negative_runfor_zero_reqcount_rejected :
    ((-1 : Int) < 0) ∧
    statspkg.Config.Validate ⟨-1, 0⟩ = ["ReqCount"] ∧
    statspkg.Stats.start ⟨-1, 0⟩ = statspkg.StartEntry.invalid ["ReqCount"] := by
  exact ⟨by decide, by decide, by decide⟩

/-- C10 (amended): for every configuration with strictly negative `RunFor`
and positive `ReqCount`, and every clock that never runs behind the start
sample, validation accepts (nil error, `Start` reaches the dispatch loop);
every reachable state of the run has zero dispatches, zero in-flight
operations, and both recorders still equal to the zero value (so
`Tries = 0` and `Ok = 0`); and the run can return in that state — the stop
time is already past at the first loop-condition check. -/
theorem negative_runfor_no_dispatch :
    ∀ (c : statspkg.Config) (clock : ℕ → Int),
      c.RunFor < 0 → 0 < c.ReqCount → (∀ k, clock 0 ≤ clock k) →
      statspkg.Config.Validate c = [] ∧
      statspkg.Stats.start c = statspkg.StartEntry.ran ∧
      (∀ s, statspkg.Reachable c clock s →
        s.iter = 0 ∧ s.inflight = 0 ∧
        s.read = statspkg.Recorder.init ∧ s.write = statspkg.Recorder.init) ∧
      (∃ s, statspkg.Reachable c clock s ∧ s.returned = true ∧
        s.read.Tries = 0 ∧ s.read.Ok = 0 ∧ s.write.Tries = 0 ∧ s.write.Ok = 0) := by
  intro c clock hRun hReq hclock
  have hcond : ∀ k, statspkg.loopCond c clock k = false := by
    intro k
    have hk := hclock (k + 1)
    simp only [statspkg.loopCond, Bool.or_eq_false_iff, decide_eq_false_iff_not, not_lt]
    exact ⟨by omega, by omega⟩
  have hval : statspkg.Config.Validate c = [] := by
    unfold statspkg.Config.Validate
    rw [if_neg (by omega), if_neg (by omega)]
    rfl
  have hstart : statspkg.Stats.start c = statspkg.StartEntry.ran := by
    unfold statspkg.Stats.start
    rw [hval]
  have hinv : ∀ s, statspkg.Reachable c clock s →
      s.iter = 0 ∧ s.inflight = 0 ∧
      s.read = statspkg.Recorder.init ∧ s.write = statspkg.Recorder.init := by
    intro s h
    induction h with
    | refl => exact ⟨rfl, rfl, rfl, rfl⟩
    | tail hab hbc ih =>
      cases hbc with
      | dispatch hd hl hcap =>
        rw [hcond] at hl
        exact absurd hl (by simp)
      | exitLoop hd hl => simpa using ih
      | finishRead ok d hin =>
        obtain ⟨_, hi, _, _⟩ := ih
        exact absurd hin (by omega)
      | finishWrite ok d hin =>
        obtain ⟨_, hi, _, _⟩ := ih
        exact absurd hin (by omega)
      | ret hd hr => simpa using ih
  refine ⟨hval, hstart, hinv,
    ⟨⟨0, false, 0, true, statspkg.Recorder.init, statspkg.Recorder.init⟩,
      ?_, rfl, rfl, rfl, rfl, rfl⟩⟩
  exact Relation.ReflTransGen.tail
    (Relation.ReflTransGen.single
      (statspkg.StartStep.exitLoop statspkg.initState rfl (hcond 0)))
    (statspkg.StartStep.ret _ rfl rfl)

/-- C10 (witness): the amended statement applied to
`Config{RunFor: -1, ReqCount: 100}` with a constant clock. -/
theorem negative_runfor_no_dispatch_witness :
    ((-1 : Int) < 0 ∧ (0 : Int) < 100) ∧
    (statspkg.Config.Validate ⟨-1, 100⟩ = [] ∧
      statspkg.Stats.start ⟨-1, 100⟩ = statspkg.StartEntry.ran ∧
      (∀ s, statspkg.Reachable ⟨-1, 100⟩ (fun _ => 0) s →
        s.iter = 0 ∧ s.inflight = 0 ∧
        s.read = statspkg.Recorder.init ∧ s.write = statspkg.Recorder.init) ∧
      (∃ s, statspkg.Reachable ⟨-1, 100⟩ (fun _ => 0) s ∧ s.returned = true ∧
        s.read.Tries = 0 ∧ s.read.Ok = 0 ∧ s.write.Tries = 0 ∧ s.write.Ok = 0)) :=
  ⟨⟨by decide, by decide⟩,
    negative_runfor_no_dispatch ⟨-1, 100⟩ (fun _ => 0) (by decide) (by decide)
      (fun k => le_refl 0)⟩
